/-
  Verification of the core logic of the oz1210 tourism web application.

  The development shallowly embeds the repository's non-trivial routines:
  * `src/lib/utils/coordinates.ts` — `convertKATECToWGS84`
  * `src/lib/api/tour-api.ts` — `fetchTourApi` retry/backoff loop
  * `src/components/tour-content-section.tsx` — infinite-scroll pagination
  * `src/actions/bookmark-actions.ts` — `addBookmark`

  JavaScript numbers are modelled as exact rationals (`ℚ`); a value produced
  by `Number(string)` is modelled as `JsNum`: either `nan` (the string did not
  parse) or `num q` (the parsed value). None of the verified properties
  depends on floating-point rounding: every division and comparison involved
  is exact at the relevant scales.
-/
import Mathlib

namespace Oz1210

/-! ## Coordinate conversion (`src/lib/utils/coordinates.ts`) -/

/-- Result of JavaScript `Number(s)`: `nan` when the string does not parse. -/
inductive JsNum where
  | nan : JsNum
  | num : ℚ → JsNum
deriving DecidableEq, Repr

/-- The continental bounding box used by `convertKATECToWGS84`:
longitude 124–132, latitude 33–43, bounds inclusive
(`lng >= 124 && lng <= 132 && lat >= 33 && lat <= 43`). -/
def inBBox (lng lat : ℚ) : Bool :=
  decide (124 ≤ lng) && decide (lng ≤ 132) && decide (33 ≤ lat) && decide (43 ≥ lat)

/-- The value returned from `convertKATECToWGS84`: the `[lng, lat]` pair
together with whether the fall-through `console.warn` side channel fired
(`warned = true` exactly on the line-70 "conversion failed" path). -/
structure ConvReturn where
  lng : ℚ
  lat : ℚ
  warned : Bool
deriving DecidableEq, Repr

/-- Embedding of `convertKATECToWGS84(mapx, mapy)` (coordinates.ts lines
28–85). `Except.error ()` models the `throw new Error` on NaN input;
otherwise the function returns a pair, with `warned` recording the
side-channel log of the fall-through branch. -/
def convertKATECToWGS84 (mapx mapy : JsNum) : Except Unit ConvReturn :=
  match mapx, mapy with
  | JsNum.nan, _ => Except.error ()
  | JsNum.num _, JsNum.nan => Except.error ()
  | JsNum.num x, JsNum.num y =>
    -- 1. already in WGS84 range
    if inBBox x y then Except.ok ⟨x, y, false⟩
    -- 2. KATEC fixed-point with 7 implied decimals
    else if decide (x > 1000000) && inBBox (x / 10000000) (y / 10000000) then
      Except.ok ⟨x / 10000000, y / 10000000, false⟩
    -- 3. alternate fixed-point with 5 implied decimals
    else if (decide (x > 10000) && decide (x ≤ 1000000))
        && inBBox (x / 100000) (y / 100000) then
      Except.ok ⟨x / 100000, y / 100000, false⟩
    -- fall-through: warn and return the raw values
    else Except.ok ⟨x, y, true⟩

/-- Embedding of `isValidCoordinate(lng, lat)` (coordinates.ts lines 94–103). -/
def isValidCoordinate (lng lat : JsNum) : Bool :=
  match lng, lat with
  | JsNum.num l, JsNum.num t =>
    decide (-180 ≤ l) && decide (l ≤ 180) && decide (-90 ≤ t) && decide (t ≤ 90)
  | _, _ => false

end Oz1210

namespace Oz1210

/-! ### Claims C1–C4 and C9 -/

/-- C1 counterexample: on a non-numeric input string (`Number` gives NaN,
modelled by `JsNum.nan`, e.g. input `"abc"`), `convertKATECToWGS84` throws
(coordinates.ts line 37), so it is not true that it never throws for every
pair of input strings. -/
theorem C1_counterexample :
    convertKATECToWGS84 JsNum.nan (JsNum.num 0) = Except.error () := by
  rfl

/-- C1 (amended): for every pair of *numeric* input strings (both parse to a
number), `convertKATECToWGS84` never throws and always returns a pair; the
failed-conversion case is signalled only by the `warned` side channel, never
by an exception. -/
theorem C1_numeric_total (x y : ℚ) :
    ∃ r : ConvReturn, convertKATECToWGS84 (JsNum.num x) (JsNum.num y) = Except.ok r := by
  simp only [convertKATECToWGS84]
  split
  · exact ⟨_, rfl⟩
  split
  · exact ⟨_, rfl⟩
  split
  · exact ⟨_, rfl⟩
  exact ⟨_, rfl⟩

/-- C2: on numeric inputs already inside the bounding box, conversion is the
identity: the parsed values come back unchanged and no warning fires. -/
theorem C2_identity_in_bbox (x y : ℚ) (h : inBBox x y = true) :
    convertKATECToWGS84 (JsNum.num x) (JsNum.num y) = Except.ok ⟨x, y, false⟩ := by
  simp [convertKATECToWGS84, h]

/-- C2 witness: `(126, 37)` is in the box and is returned unchanged. -/
theorem C2_identity_in_bbox_witness :
    convertKATECToWGS84 (JsNum.num 126) (JsNum.num 37)
      = Except.ok ⟨126, 37, false⟩ :=
  C2_identity_in_bbox 126 37 (by decide)

/-- C3: when `x > 1,000,000` and the values divided by 10,000,000 fall in the
bounding box, conversion returns the divided pair. (The identity branch
cannot fire first: `x > 1,000,000` excludes `x ≤ 132`.) -/
theorem C3_divide_ten_million (x y : ℚ)
    (hx : x > 1000000)
    (hbox : inBBox (x / 10000000) (y / 10000000) = true) :
    convertKATECToWGS84 (JsNum.num x) (JsNum.num y)
      = Except.ok ⟨x / 10000000, y / 10000000, false⟩ := by
  have hnot : inBBox x y = false := by
    simp only [inBBox, Bool.and_eq_false_iff, decide_eq_false_iff_not, not_le]
    left; left; right
    linarith
  simp [convertKATECToWGS84, hnot, hx, hbox]

/-- C3 witness: `(1265000000, 375000000)` converts to `(126.5, 37.5)`. -/
theorem C3_divide_ten_million_witness :
    convertKATECToWGS84 (JsNum.num 1265000000) (JsNum.num 375000000)
      = Except.ok ⟨1265000000 / 10000000, 375000000 / 10000000, false⟩ :=
  C3_divide_ten_million 1265000000 375000000 (by norm_num) (by norm_num [inBBox])

/-- C4: when the raw values are out of the box and neither guarded division
produces an in-box result, the raw parsed values come back unchanged, with
the warning side channel fired. -/
theorem C4_fallback_raw (x y : ℚ)
    (h1 : inBBox x y = false)
    (h2 : ¬(x > 1000000 ∧ inBBox (x / 10000000) (y / 10000000) = true))
    (h3 : ¬((x > 10000 ∧ x ≤ 1000000) ∧ inBBox (x / 100000) (y / 100000) = true)) :
    convertKATECToWGS84 (JsNum.num x) (JsNum.num y) = Except.ok ⟨x, y, true⟩ := by
  have g2 : (decide (x > 1000000) && inBBox (x / 10000000) (y / 10000000)) = false := by
    rw [Bool.and_eq_false_iff]
    by_cases hx : x > 1000000
    · right
      rcases Bool.eq_false_or_eq_true (inBBox (x / 10000000) (y / 10000000)) with hb | hb
      · exact absurd ⟨hx, hb⟩ h2
      · exact hb
    · left; simpa using hx
  have g3 : ((decide (x > 10000) && decide (x ≤ 1000000))
      && inBBox (x / 100000) (y / 100000)) = false := by
    rw [Bool.and_eq_false_iff]
    by_cases hx : x > 10000 ∧ x ≤ 1000000
    · right
      rcases Bool.eq_false_or_eq_true (inBBox (x / 100000) (y / 100000)) with hb | hb
      · exact absurd ⟨hx, hb⟩ h3
      · exact hb
    · left
      rw [Bool.and_eq_false_iff]
      rcases not_and_or.mp hx with hx1 | hx2
      · left; simpa using hx1
      · right; simpa using hx2
  simp [convertKATECToWGS84, h1, g2, g3]

/-- C4 witness: `(0, 0)` fails every check and is returned raw with the
warning fired. -/
theorem C4_fallback_raw_witness :
    convertKATECToWGS84 (JsNum.num 0) (JsNum.num 0) = Except.ok ⟨0, 0, true⟩ :=
  C4_fallback_raw 0 0 (by decide) (by norm_num) (by norm_num)



/-- C9: the divide-by-100,000 branch is dead: every successful return of
`convertKATECToWGS84` is either the raw parsed pair or the pair divided by
10,000,000 — never the pair divided by 100,000 via branch 3, because that
branch's guard `x ≤ 1,000,000` forces `x / 100,000 ≤ 10 < 124`, failing its
bounding-box check. -/
theorem C9_branch3_dead (x y : ℚ) (r : ConvReturn)
    (h : convertKATECToWGS84 (JsNum.num x) (JsNum.num y) = Except.ok r) :
    (r.lng = x ∧ r.lat = y) ∨ (r.lng = x / 10000000 ∧ r.lat = y / 10000000) := by
  have g3 : ∀ z : ℚ, x ≤ 1000000 → inBBox (x / 100000) z = false := by
    intro z hle
    simp only [inBBox, Bool.and_eq_false_iff, decide_eq_false_iff_not, not_le]
    left; left; left
    have : x / 100000 ≤ 10 := by linarith
    linarith
  simp only [convertKATECToWGS84] at h
  by_cases h1 : inBBox x y = true
  · simp [h1] at h
    subst h
    exact Or.inl ⟨rfl, rfl⟩
  · rw [Bool.not_eq_true] at h1
    simp only [h1, Bool.false_eq_true, if_false] at h
    by_cases h2 : (decide (x > 1000000) && inBBox (x / 10000000) (y / 10000000)) = true
    · simp [h2] at h
      subst h
      exact Or.inr ⟨rfl, rfl⟩
    · rw [Bool.not_eq_true] at h2
      simp only [h2, Bool.false_eq_true, if_false] at h
      by_cases hle : x ≤ 1000000
      · have : ((decide (x > 10000) && decide (x ≤ 1000000))
            && inBBox (x / 100000) (y / 100000)) = false := by
          rw [Bool.and_eq_false_iff]
          right
          exact g3 (y / 100000) hle
        simp only [this, Bool.false_eq_true, if_false, Except.ok.injEq] at h
        subst h
        exact Or.inl ⟨rfl, rfl⟩
      · have : (decide (x > 10000) && decide (x ≤ 1000000)) = false := by
          rw [Bool.and_eq_false_iff]
          right; simpa using hle
        rw [Bool.and_eq_false_iff] at this
        have hfalse : ((decide (x > 10000) && decide (x ≤ 1000000))
            && inBBox (x / 100000) (y / 100000)) = false := by
          rw [Bool.and_eq_false_iff]
          left
          rw [Bool.and_eq_false_iff]
          right; simpa using hle
        simp only [hfalse, Bool.false_eq_true, if_false, Except.ok.injEq] at h
        subst h
        exact Or.inl ⟨rfl, rfl⟩

/-- C9 witness: applying the dichotomy at the in-box point `(126, 37)`. -/
theorem C9_branch3_dead_witness :
    (ConvReturn.lng ⟨126, 37, false⟩ = 126 ∧ ConvReturn.lat ⟨126, 37, false⟩ = 37) ∨
    (ConvReturn.lng ⟨126, 37, false⟩ = 126 / 10000000 ∧
      ConvReturn.lat ⟨126, 37, false⟩ = 37 / 10000000) :=
  C9_branch3_dead 126 37 ⟨126, 37, false⟩ (by rfl)

end Oz1210

namespace Oz1210

/-! ## Tour API client retry loop (`src/lib/api/tour-api.ts`, lines 145–292)

`fetchTourApi` loops `for (attempt = 0; attempt <= retries; attempt++)`
(defaults `retries = 3`, `retryDelay = 1000`). The network is modelled as a
function `world : Nat → Outcome` giving the outcome of each attempt; the
embedding returns the final result together with the number of fetch
attempts performed and the list of backoff delays inserted between them. -/

/-- Shape of the JSON value parsed from a 2xx response body, recording
exactly the duck-typed fields inspected by tour-api.ts lines 219–253. -/
structure JsonData where
  hasResultCode : Bool
  hasResultMsg : Bool
  hasResponse : Bool
  hasHeader : Bool
  resultCode : String
deriving DecidableEq, Repr

/-- What the network does on one fetch attempt: the `fetch` promise rejects
(`transport`), or an HTTP response arrives; a `none` body models
`response.json()` throwing `SyntaxError` on a 2xx response. -/
inductive Outcome where
  | transport : Outcome
  | resp : Nat → Option JsonData → Outcome
deriving DecidableEq, Repr

/-- The error classes thrown by `fetchTourApi` (tour-api.ts lines 44–75). -/
inductive ErrKind where
  | tourApi : ErrKind
  | network : ErrKind
  | parse : ErrKind
  | validation : ErrKind
deriving DecidableEq, Repr

/-- `response.ok`: status in [200, 300). -/
def okStatus (s : Nat) : Bool := decide (200 ≤ s) && decide (s < 300)

/-- The never-retried client-error statuses: [400, 500) (lines 182). -/
def clientErrorStatus (s : Nat) : Bool := decide (400 ≤ s) && decide (s < 500)

/-- Classification of a parsed 2xx body (tour-api.ts lines 219–253): flat
error shape → TourApiError; missing `response.header` → ParseError;
`resultCode ≠ '0000'` → TourApiError; otherwise success. -/
def classifyBody (d : JsonData) : Except ErrKind JsonData :=
  if d.hasResultCode && d.hasResultMsg && !d.hasResponse then
    Except.error ErrKind.tourApi
  else if !(d.hasResponse && d.hasHeader) || decide (d.resultCode ≠ "0000") then
    if !(d.hasResponse && d.hasHeader) then Except.error ErrKind.parse
    else Except.error ErrKind.tourApi
  else Except.ok d

/-- Result of one iteration of the retry loop body: a successful parse, an
error thrown and rethrown by the catch without retry (`fatal`), or a
retryable condition (`transient e`, where `e` is the error class surfaced
if this was the final attempt). -/
inductive StepResult where
  | success : JsonData → StepResult
  | fatal : ErrKind → StepResult
  | transient : ErrKind → StepResult
deriving DecidableEq, Repr

/-- One iteration of the `fetchTourApi` loop body on a given outcome:
- transport failure → retried; `NetworkError` on exhaustion (lines 268–286);
- non-ok status: 4xx → `TourApiError` immediately (lines 180–190); other
  non-ok statuses → retried, `TourApiError` on exhaustion (lines 192–210);
- 2xx with unparseable JSON (`SyntaxError`) → retried; `ParseError` on
  exhaustion (lines 282–284);
- 2xx with parsed body → `classifyBody` (success or fatal, lines 219–255). -/
def step (o : Outcome) : StepResult :=
  match o with
  | Outcome.transport => StepResult.transient ErrKind.network
  | Outcome.resp s body =>
    if !okStatus s then
      if clientErrorStatus s then StepResult.fatal ErrKind.tourApi
      else StepResult.transient ErrKind.tourApi
    else
      match body with
      | none => StepResult.transient ErrKind.parse
      | some d =>
        match classifyBody d with
        | Except.ok d' => StepResult.success d'
        | Except.error e => StepResult.fatal e

/-- Observable behaviour of a `fetchTourApi` call: the returned value or
thrown error, the number of fetch attempts performed, and the backoff
delays (in ms) inserted between consecutive attempts, in order. -/
structure Trace where
  result : Except ErrKind JsonData
  attempts : Nat
  delays : List Nat
deriving Repr

/-- The retry loop, recursing on the number of remaining extra attempts
(`remaining = retries - attempt`); the delay before the retry after attempt
`attempt` is `retryDelay * 2 ^ attempt` (lines 194, 270). -/
def fetchLoop (retryDelay : Nat) (world : Nat → Outcome) (attempt : Nat) :
    Nat → Trace
  | 0 =>
    match step (world attempt) with
    | StepResult.success d => ⟨Except.ok d, 1, []⟩
    | StepResult.fatal e => ⟨Except.error e, 1, []⟩
    | StepResult.transient e => ⟨Except.error e, 1, []⟩
  | remaining + 1 =>
    match step (world attempt) with
    | StepResult.success d => ⟨Except.ok d, 1, []⟩
    | StepResult.fatal e => ⟨Except.error e, 1, []⟩
    | StepResult.transient _ =>
      let t := fetchLoop retryDelay world (attempt + 1) remaining
      ⟨t.result, t.attempts + 1, retryDelay * 2 ^ attempt :: t.delays⟩

/-- Embedding of `fetchTourApi` with explicit `retries`/`retryDelay`
options (defaults in the source: `retries = 3`, `retryDelay = 1000`). -/
def fetchTourApi (retries retryDelay : Nat) (world : Nat → Outcome) : Trace :=
  fetchLoop retryDelay world 0 retries

/-- A transient failure in the sense of the spec: the transport fails, or
the server answers with a 5xx status. -/
def TransientOutcome (o : Outcome) : Prop :=
  o = Outcome.transport ∨
    ∃ s body, o = Outcome.resp s body ∧ 500 ≤ s ∧ s < 600

/-- A successful attempt in the sense of the spec: a 2xx response whose
parsed body carries the envelope header with `resultCode = "0000"`. -/
def ValidEnvelope (o : Outcome) (d : JsonData) : Prop :=
  ∃ s, o = Outcome.resp s (some d) ∧ okStatus s = true ∧
    d.hasResponse = true ∧ d.hasHeader = true ∧ d.resultCode = "0000"

/-- A transient outcome makes the loop body retry. -/
theorem step_of_transient {o : Outcome} (h : TransientOutcome o) :
    ∃ e, step o = StepResult.transient e := by
  rcases h with h | ⟨s, body, rfl, h5, h6⟩
  · exact ⟨ErrKind.network, by rw [h]; rfl⟩
  · refine ⟨ErrKind.tourApi, ?_⟩
    have hok : okStatus s = false := by
      simp only [okStatus, Bool.and_eq_false_iff, decide_eq_false_iff_not, not_le, not_lt]
      right; omega
    have hce : clientErrorStatus s = false := by
      simp only [clientErrorStatus, Bool.and_eq_false_iff, decide_eq_false_iff_not,
        not_le, not_lt]
      right; omega
    simp [step, hok, hce]

/-- A valid-envelope outcome makes the loop body succeed with that data. -/
theorem step_of_validEnvelope {o : Outcome} {d : JsonData} (h : ValidEnvelope o d) :
    step o = StepResult.success d := by
  rcases h with ⟨s, rfl, hok, hresp, hhead, hcode⟩
  have hclass : classifyBody d = Except.ok d := by
    simp [classifyBody, hresp, hhead, hcode]
  simp [step, hok, hclass]

/-- Core retry lemma: `n` transient outcomes followed by a valid envelope
give a success after exactly `n + 1` attempts, with delays
`retryDelay * 2 ^ (attempt + i)` for `i < n`. -/
theorem fetchLoop_transient_then_success (retryDelay : Nat) (world : Nat → Outcome)
    (d : JsonData) :
    ∀ n remaining attempt, n ≤ remaining →
    (∀ i, i < n → TransientOutcome (world (attempt + i))) →
    ValidEnvelope (world (attempt + n)) d →
    fetchLoop retryDelay world attempt remaining =
      ⟨Except.ok d, n + 1, (List.range n).map (fun i => retryDelay * 2 ^ (attempt + i))⟩ := by
  intro n
  induction n with
  | zero =>
    intro remaining attempt _ _ hsucc
    have hstep : step (world attempt) = StepResult.success d := by
      simpa using step_of_validEnvelope hsucc
    cases remaining with
    | zero => simp [fetchLoop, hstep]
    | succ r => simp [fetchLoop, hstep]
  | succ n ih =>
    intro remaining attempt hle hfail hsucc
    obtain ⟨r, rfl⟩ : ∃ r, remaining = r + 1 := ⟨remaining - 1, by omega⟩
    obtain ⟨e, hstep⟩ := step_of_transient (hfail 0 (Nat.succ_pos n))
    rw [Nat.add_zero] at hstep
    have hrec := ih r (attempt + 1) (by omega)
      (fun i hi => by
        have := hfail (i + 1) (by omega)
        rwa [show attempt + (i + 1) = attempt + 1 + i by omega] at this)
      (by rwa [show attempt + 1 + n = attempt + (n + 1) by omega])
    simp only [fetchLoop, hstep, hrec]
    refine congrArg (Trace.mk (Except.ok d) (n + 1 + 1)) ?_
    rw [List.range_succ_eq_map, List.map_cons, List.map_map]
    refine congrArg (List.cons (retryDelay * 2 ^ attempt)) ?_
    refine List.map_congr_left ?_
    intro i _
    simp only [Function.comp_apply]
    rw [show attempt + (i + 1) = attempt + 1 + i by omega]

/-- C5: if the first `N - 1` attempts fail transiently (5xx or transport)
and the `N`-th attempt returns a valid envelope (`resultCode "0000"`), with
`1 ≤ N ≤ retries + 1`, then `fetchTourApi` returns the parsed response,
performs exactly `N` fetch attempts, and sleeps `retryDelay * 2 ^ i` between
attempts `i` and `i + 1`. -/
theorem C5_retries_then_success (retries retryDelay N : Nat) (world : Nat → Outcome)
    (d : JsonData) (hN1 : 1 ≤ N) (hN2 : N ≤ retries + 1)
    (hfail : ∀ i, i < N - 1 → TransientOutcome (world i))
    (hsucc : ValidEnvelope (world (N - 1)) d) :
    fetchTourApi retries retryDelay world =
      ⟨Except.ok d, N, (List.range (N - 1)).map (fun i => retryDelay * 2 ^ i)⟩ := by
  have h := fetchLoop_transient_then_success retryDelay world d (N - 1) retries 0
    (by omega)
    (fun i hi => by simpa using hfail i hi)
    (by simpa using hsucc)
  rw [fetchTourApi, h]
  have hn : N - 1 + 1 = N := by omega
  rw [hn]
  simp only [Nat.zero_add]

/-- The world used for the C5 witness: one 500 response, then a valid
envelope. -/
def w5 : Nat → Outcome := fun i =>
  if i = 0 then Outcome.resp 500 none
  else Outcome.resp 200 (some ⟨false, false, true, true, "0000"⟩)

/-- C5 witness: with `retries = 3`, `retryDelay = 1000`, a 500 followed by a
success returns the data after exactly 2 attempts and one 1000 ms delay. -/
theorem C5_retries_then_success_witness :
    fetchTourApi 3 1000 w5 =
      ⟨Except.ok ⟨false, false, true, true, "0000"⟩, 2,
        (List.range 1).map (fun i => 1000 * 2 ^ i)⟩ :=
  C5_retries_then_success 3 1000 2 w5 ⟨false, false, true, true, "0000"⟩
    (by decide) (by decide)
    (fun i hi => by
      have h0 : i = 0 := by omega
      subst h0
      exact Or.inr ⟨500, none, rfl, by decide, by decide⟩)
    ⟨200, rfl, by decide, rfl, rfl, rfl⟩

end Oz1210

namespace Oz1210

/-- A fatal step never retries: the loop stops after exactly one attempt
with that error, for any remaining-attempt budget. -/
theorem fetchLoop_fatal (retryDelay : Nat) (world : Nat → Outcome)
    (attempt remaining : Nat) (e : ErrKind)
    (h : step (world attempt) = StepResult.fatal e) :
    fetchLoop retryDelay world attempt remaining =
      ⟨Except.error e, 1, []⟩ := by
  cases remaining with
  | zero => simp [fetchLoop, h]
  | succ r => simp [fetchLoop, h]

/-- C6: client errors are never retried. (a) A first response with a 4xx
status makes `fetchTourApi` throw `TourApiError` after exactly 1 attempt
and no delay; (b) any error the loop body classifies as fatal
(`ValidationError`, `TourApiError`, `ParseError`) surfaces immediately
after exactly 1 attempt; (c) a 2xx envelope with a header whose
`resultCode ≠ "0000"` is classified as a fatal `TourApiError` regardless of
HTTP status; (d) a 2xx success-shaped body missing `response.header` (and
not of the flat error shape) is classified as a fatal `ParseError`. -/
theorem C6_no_retry_on_client_errors (retries retryDelay : Nat) (world : Nat → Outcome) :
    (∀ s body, world 0 = Outcome.resp s body → 400 ≤ s → s < 500 →
      fetchTourApi retries retryDelay world = ⟨Except.error ErrKind.tourApi, 1, []⟩) ∧
    (∀ e, step (world 0) = StepResult.fatal e →
      fetchTourApi retries retryDelay world = ⟨Except.error e, 1, []⟩) ∧
    (∀ s d, okStatus s = true → d.hasResponse = true → d.hasHeader = true →
      d.resultCode ≠ "0000" →
      step (Outcome.resp s (some d)) = StepResult.fatal ErrKind.tourApi) ∧
    (∀ s d, okStatus s = true → (d.hasResponse && d.hasHeader) = false →
      (d.hasResultCode && d.hasResultMsg && !d.hasResponse) = false →
      step (Outcome.resp s (some d)) = StepResult.fatal ErrKind.parse) := by
  refine ⟨?_, ?_, ?_, ?_⟩
  · intro s body hw h4 h5
    have hok : okStatus s = false := by
      simp only [okStatus, Bool.and_eq_false_iff, decide_eq_false_iff_not, not_le, not_lt]
      right; omega
    have hce : clientErrorStatus s = true := by
      simp only [clientErrorStatus, Bool.and_eq_true, decide_eq_true_eq]
      omega
    have hstep : step (world 0) = StepResult.fatal ErrKind.tourApi := by
      rw [hw]; simp [step, hok, hce]
    exact fetchLoop_fatal retryDelay world 0 retries ErrKind.tourApi hstep
  · intro e he
    exact fetchLoop_fatal retryDelay world 0 retries e he
  · intro s d hok hresp hhead hcode
    have hflat : (d.hasResultCode && d.hasResultMsg && !d.hasResponse) = false := by
      simp [hresp]
    have hclass : classifyBody d = Except.error ErrKind.tourApi := by
      simp [classifyBody, hflat, hresp, hhead, hcode]
    simp [step, hok, hclass]
  · intro s d hok hmiss hflat
    have hclass : classifyBody d = Except.error ErrKind.parse := by
      simp [classifyBody, hflat, hmiss]
    simp [step, hok, hclass]

/-- The world used for the C6 witness: every attempt answers 404. -/
def w6 : Nat → Outcome := fun _ => Outcome.resp 404 none

/-- C6 witness: a 404 on the first attempt gives a `TourApiError` after
exactly 1 attempt and no backoff delay, even with retries available. -/
theorem C6_no_retry_on_client_errors_witness :
    fetchTourApi 3 1000 w6 = ⟨Except.error ErrKind.tourApi, 1, []⟩ :=
  (C6_no_retry_on_client_errors 3 1000 w6).1 404 none rfl (by decide) (by decide)

end Oz1210

namespace Oz1210

/-! ## Infinite-scroll pagination (`src/components/tour-content-section.tsx`)

`TourContentSection` keeps `tours`, `pageNo`, `hasMore` and `error` state;
`loadNextPage` (lines 87–156) fetches page `pageNo + 1`, client-side sorts
the new page, appends it, and recomputes `hasMore` by comparing the
accumulated count with the server-reported `totalCount`. The model treats
one `loadNextPage` call as a pure state transition; `isLoading` is `false`
between sequential calls and is not modelled. -/

/-- The fields of a `TourItem` that `loadNextPage` inspects. -/
structure Item where
  title : String
  modifiedtime : String
deriving DecidableEq, Repr

/-- The `sort` prop: `'name'` or `'latest'` (default). -/
inductive SortOpt where
  | byName : SortOpt
  | latest : SortOpt
deriving DecidableEq, Repr

/-- Stable insertion of an element into a sorted list. -/
def insertLE (le : Item → Item → Bool) (a : Item) : List Item → List Item
  | [] => [a]
  | b :: bs => if le a b then a :: b :: bs else b :: insertLE le a bs

/-- A stable comparison sort, modelling JavaScript `Array.prototype.sort`
with a comparator (V8's sort is stable). -/
def sortItems (le : Item → Item → Bool) : List Item → List Item
  | [] => []
  | a :: as => insertLE le a (sortItems le as)

/-- The client-side sort of a fetched page (lines 122–134): by title when
`sort === 'name'` (`localeCompare` modelled by string order), otherwise by
`modifiedtime` descending with `'0'` substituted for an empty string. -/
def sortPage : SortOpt → List Item → List Item
  | SortOpt.byName, xs => sortItems (fun a b => decide (a.title ≤ b.title)) xs
  | SortOpt.latest, xs =>
      sortItems (fun a b =>
        decide ((if b.modifiedtime = "" then "0" else b.modifiedtime) ≤
          (if a.modifiedtime = "" then "0" else a.modifiedtime))) xs

/-- The component state touched by `loadNextPage`. -/
structure PageState where
  tours : List Item
  pageNo : Nat
  hasMore : Bool
  error : Bool
deriving DecidableEq, Repr

/-- Result of the server action fetching one page: it either throws
(`failure`) or returns `{ items, totalCount }`. -/
inductive FetchPage where
  | failure : FetchPage
  | success : List Item → Nat → FetchPage
deriving DecidableEq, Repr

/-- Initial state of `TourContentSection` (lines 63–70): page 1 already
loaded, `hasMore = initialTours.length < totalCount && totalCount > 0`. -/
def initState (initialTours : List Item) (totalCount : Nat) (initialError : Bool) :
    PageState :=
  { tours := initialTours, pageNo := 1,
    hasMore := decide (initialTours.length < totalCount) && decide (0 < totalCount),
    error := initialError }

/-- One `loadNextPage` call (lines 87–156) with the fetch modelled as a
function of the requested page number: return early unless `hasMore`; on a
thrown fetch set `error` and deliberately leave `hasMore` unchanged; on an
empty page set `hasMore := false`; otherwise sort, append, advance the page
counter and recompute `hasMore` against the reported total. -/
def loadNextPage (sort : SortOpt) (fetch : Nat → FetchPage) (s : PageState) :
    PageState :=
  if !s.hasMore then s
  else
    match fetch (s.pageNo + 1) with
    | FetchPage.failure => { s with error := true }
    | FetchPage.success items totalCount =>
      if items.length = 0 then { s with hasMore := false, error := false }
      else
        let newTours := s.tours ++ sortPage sort items
        { tours := newTours, pageNo := s.pageNo + 1,
          hasMore := decide (newTours.length < totalCount), error := false }

theorem insertLE_length (le : Item → Item → Bool) (a : Item) :
    ∀ l : List Item, (insertLE le a l).length = l.length + 1 := by
  intro l
  induction l with
  | nil => rfl
  | cons b bs ih =>
    simp only [insertLE]
    split
    · rfl
    · simp only [List.length_cons, ih]

theorem sortItems_length (le : Item → Item → Bool) :
    ∀ l : List Item, (sortItems le l).length = l.length := by
  intro l
  induction l with
  | nil => rfl
  | cons a as ih =>
    simp only [sortItems, insertLE_length, ih, List.length_cons]

/-- Sorting a page preserves its length. -/
theorem sortPage_length (sort : SortOpt) (l : List Item) :
    (sortPage sort l).length = l.length := by
  cases sort <;> simp [sortPage, sortItems_length]

/-- A successful non-empty page appends the sorted items, advances the
page counter, recomputes `hasMore` against the reported total, and clears
the error. -/
theorem loadNextPage_success (sort : SortOpt) (fetch : Nat → FetchPage)
    (s : PageState) (items : List Item) (tc : Nat)
    (hm : s.hasMore = true)
    (hf : fetch (s.pageNo + 1) = FetchPage.success items tc)
    (hne : items.length ≠ 0) :
    (loadNextPage sort fetch s).tours.length = s.tours.length + items.length ∧
    (loadNextPage sort fetch s).pageNo = s.pageNo + 1 ∧
    (loadNextPage sort fetch s).hasMore
      = decide (s.tours.length + items.length < tc) ∧
    (loadNextPage sort fetch s).error = false := by
  simp only [loadNextPage, hm, Bool.not_true, Bool.false_eq_true, if_false, hf]
  rw [if_neg hne]
  refine ⟨?_, rfl, ?_, rfl⟩
  · simp [sortPage_length]
  · simp [sortPage_length]

/-- A thrown fetch sets the error flag and leaves everything else, in
particular `hasMore`, unchanged. -/
theorem loadNextPage_failure (sort : SortOpt) (fetch : Nat → FetchPage)
    (s : PageState) (hm : s.hasMore = true)
    (hf : fetch (s.pageNo + 1) = FetchPage.failure) :
    loadNextPage sort fetch s = { s with error := true } := by
  simp [loadNextPage, hm, hf]

/-- C7: starting from 20 initial items with `totalCount = 45` and page size
20, two further successful fetches of 20 and then 5 items accumulate 45
items and make `hasMore` false; if instead the 2nd fetch (page 2) throws,
`hasMore` stays true and the accumulated count stays 20. -/
theorem C7_pagination_scenario (sort : SortOpt) (init p2 p3 : List Item)
    (fetch fetchFail : Nat → FetchPage)
    (h0 : init.length = 20) (h2 : p2.length = 20) (h3 : p3.length = 5)
    (hf2 : fetch 2 = FetchPage.success p2 45)
    (hf3 : fetch 3 = FetchPage.success p3 45)
    (hff : fetchFail 2 = FetchPage.failure) :
    ((loadNextPage sort fetch (loadNextPage sort fetch (initState init 45 false))).tours.length = 45 ∧
     (loadNextPage sort fetch (loadNextPage sort fetch (initState init 45 false))).hasMore = false) ∧
    ((loadNextPage sort fetchFail (initState init 45 false)).hasMore = true ∧
     (loadNextPage sort fetchFail (initState init 45 false)).tours.length = 20) := by
  have hs0m : (initState init 45 false).hasMore = true := by
    simp [initState, h0]
  have hs0p : (initState init 45 false).pageNo = 1 := rfl
  have hs0t : (initState init 45 false).tours = init := rfl
  have step1 := loadNextPage_success sort fetch (initState init 45 false) p2 45 hs0m
    (by rw [hs0p]; exact hf2) (by rw [h2]; decide)
  obtain ⟨l1, pN1, hm1, _⟩ := step1
  rw [hs0t, h0, h2] at l1 hm1
  have hm1' : (loadNextPage sort fetch (initState init 45 false)).hasMore = true := by
    rw [hm1]; decide
  have step2 := loadNextPage_success sort fetch
    (loadNextPage sort fetch (initState init 45 false)) p3 45 hm1'
    (by rw [pN1, hs0p]; exact hf3) (by rw [h3]; decide)
  obtain ⟨l2, _, hm2, _⟩ := step2
  rw [l1, h3] at l2 hm2
  have hfailEq := loadNextPage_failure sort fetchFail (initState init 45 false) hs0m
    (by rw [hs0p]; exact hff)
  refine ⟨⟨by rw [l2], by rw [hm2]; decide⟩, ?_, ?_⟩
  · rw [hfailEq]
    exact hs0m
  · rw [hfailEq]
    simp [hs0t, h0]

/-- A sample item for the pagination witnesses. -/
def sampleItem : Item := ⟨"sample", "20240101000000"⟩

/-- Witness fetch responses: page 2 has 20 items, page 3 has 5. -/
def fetchW : Nat → FetchPage := fun n =>
  if n = 2 then FetchPage.success (List.replicate 20 sampleItem) 45
  else if n = 3 then FetchPage.success (List.replicate 5 sampleItem) 45
  else FetchPage.failure

/-- Witness fetch that always throws. -/
def fetchFailW : Nat → FetchPage := fun _ => FetchPage.failure

/-- C7 witness: the concrete 20 + 20 + 5 / failed-page-2 scenario. -/
theorem C7_pagination_scenario_witness :
    ((loadNextPage SortOpt.latest fetchW (loadNextPage SortOpt.latest fetchW
        (initState (List.replicate 20 sampleItem) 45 false))).tours.length = 45 ∧
     (loadNextPage SortOpt.latest fetchW (loadNextPage SortOpt.latest fetchW
        (initState (List.replicate 20 sampleItem) 45 false))).hasMore = false) ∧
    ((loadNextPage SortOpt.latest fetchFailW
        (initState (List.replicate 20 sampleItem) 45 false)).hasMore = true ∧
     (loadNextPage SortOpt.latest fetchFailW
        (initState (List.replicate 20 sampleItem) 45 false)).tours.length = 20) :=
  C7_pagination_scenario SortOpt.latest (List.replicate 20 sampleItem)
    (List.replicate 20 sampleItem) (List.replicate 5 sampleItem) fetchW fetchFailW
    (by simp) (by simp) (by simp) rfl rfl rfl

/-- C10: a successful fetch returning zero items sets `hasMore` to false
and leaves the accumulated list and the page counter unchanged — in
particular also when the accumulated count is still below `totalCount`. -/
theorem C10_empty_page_stops (sort : SortOpt) (fetch : Nat → FetchPage)
    (s : PageState) (tc : Nat) (hm : s.hasMore = true)
    (hf : fetch (s.pageNo + 1) = FetchPage.success [] tc) :
    (loadNextPage sort fetch s).hasMore = false ∧
    (loadNextPage sort fetch s).tours = s.tours ∧
    (loadNextPage sort fetch s).pageNo = s.pageNo := by
  simp [loadNextPage, hm, hf]

/-- Witness fetch for C10: page 2 succeeds with zero items and
`totalCount = 45`. -/
def fetchEmptyW : Nat → FetchPage := fun _ => FetchPage.success [] 45

/-- C10 witness: one accumulated item, `totalCount = 45`, an empty page
still turns `hasMore` off and changes neither the list nor the counter. -/
theorem C10_empty_page_stops_witness :
    (loadNextPage SortOpt.latest fetchEmptyW ⟨[sampleItem], 1, true, false⟩).hasMore = false ∧
    (loadNextPage SortOpt.latest fetchEmptyW ⟨[sampleItem], 1, true, false⟩).tours = [sampleItem] ∧
    (loadNextPage SortOpt.latest fetchEmptyW ⟨[sampleItem], 1, true, false⟩).pageNo = 1 :=
  C10_empty_page_stops SortOpt.latest fetchEmptyW ⟨[sampleItem], 1, true, false⟩ 45 rfl rfl

end Oz1210

namespace Oz1210

/-! ## Bookmarks (`src/actions/bookmark-actions.ts`) -/

/-- A row of the `bookmarks` join table (user id, attraction id); the
timestamp plays no role in the verified property. -/
structure BookmarkRow where
  user_id : String
  content_id : String
deriving DecidableEq, Repr

/-- Modelled from the spec: the insert into the external managed database's
`bookmarks` join table. The table and its uniqueness constraint on
(user, attraction) live in the external Supabase project, not in this
repository; per the spec, inserting an existing (user, attraction) pair is
"surfaced to the application as a distinguishable conflict error", the
Postgres unique-violation code `'23505'` that bookmark-actions.ts line 175
checks for. On success the row is appended. -/
def dbInsertBookmark (rows : List BookmarkRow) (user content : String) :
    Except String (List BookmarkRow) :=
  if BookmarkRow.mk user content ∈ rows then Except.error "23505"
  else Except.ok (rows ++ [BookmarkRow.mk user content])

/-- The errors `addBookmark` can throw (bookmark-actions.ts lines 150–187):
not signed in (line 156), duplicate bookmark (line 176), other insert
failure (line 179). -/
inductive BookmarkError where
  | notSignedIn : BookmarkError
  | alreadyBookmarked : BookmarkError
  | insertFailed : BookmarkError
deriving DecidableEq, Repr

/-- Embedding of `addBookmark(contentId)`: `authUserId` is the Clerk user
id from `auth()` (`none` when signed out), `uuidOf` the Clerk-to-Supabase
id mapping performed by `getSupabaseUserId`, `rows` the current state of
the `bookmarks` table. Returns the inserted row and the new table state,
or the thrown error; a database error with code `'23505'` is mapped to the
dedicated "already bookmarked" error. -/
def addBookmark (authUserId : Option String) (uuidOf : String → String)
    (rows : List BookmarkRow) (contentId : String) :
    Except BookmarkError (BookmarkRow × List BookmarkRow) :=
  match authUserId with
  | none => Except.error BookmarkError.notSignedIn
  | some clerkId =>
    let uid := uuidOf clerkId
    match dbInsertBookmark rows uid contentId with
    | Except.error code =>
      if code = "23505" then Except.error BookmarkError.alreadyBookmarked
      else Except.error BookmarkError.insertFailed
    | Except.ok rows' => Except.ok (BookmarkRow.mk uid contentId, rows')

/-- C8: for an authenticated user whose (user, attraction) pair is already
in the table, `addBookmark` surfaces the dedicated "already bookmarked"
error — the `'23505'` unique-violation mapping — and performs no insert:
the underlying database write fails, so no duplicate row is created. -/
theorem C8_duplicate_bookmark (clerkId contentId : String)
    (uuidOf : String → String) (rows : List BookmarkRow)
    (h : BookmarkRow.mk (uuidOf clerkId) contentId ∈ rows) :
    addBookmark (some clerkId) uuidOf rows contentId
      = Except.error BookmarkError.alreadyBookmarked ∧
    dbInsertBookmark rows (uuidOf clerkId) contentId = Except.error "23505" := by
  have hdb : dbInsertBookmark rows (uuidOf clerkId) contentId = Except.error "23505" := by
    simp [dbInsertBookmark, h]
  refine ⟨?_, hdb⟩
  simp [addBookmark, hdb]

/-- C8 witness: user `"user_1"` (mapped to uuid `"uuid-1"`) re-bookmarking
content `"125266"` already present in the table. -/
theorem C8_duplicate_bookmark_witness :
    addBookmark (some "user_1") (fun _ => "uuid-1")
        [BookmarkRow.mk "uuid-1" "125266"] "125266"
      = Except.error BookmarkError.alreadyBookmarked ∧
    dbInsertBookmark [BookmarkRow.mk "uuid-1" "125266"] "uuid-1" "125266"
      = Except.error "23505" :=
  C8_duplicate_bookmark "user_1" "125266" (fun _ => "uuid-1")
    [BookmarkRow.mk "uuid-1" "125266"] (by simp)

end Oz1210
